import Mathlib

/-!
Verification of the ArtifactsMMO per-entity task execution engine

This file gives a shallow embedding, in Lean 4, of the core of the
ArtifactsMMO bot repository — the per-entity sequential task execution
engine — and proves properties of it.

The embedding covers:
* `src/artifactmmo/networking.py` — `make_request` (status check plus the
  `["data"]` unwrap; the HTTP transport itself is the external oracle,
  modelled as a pair of a success flag and a raw JSON body);
* `src/artifactsmmo/datatypes.py` — `CharacterData.from_json` and the
  record types it builds (Python is dynamically typed, so the leaf fields
  hold raw JSON values, exactly as the Python constructors store whatever
  the decoded JSON contained);
* `src/artifactmmo/character.py` — `Task.execute`, `Character.init`,
  `Character.run_task`, `Character.add_task`;
* `src/artifactsmmo/__main__.py` — `get_amount_by_code`.

Python exceptions are modelled by the `PyError` type; a failing operation
returns the error together with the mutations that had already happened
(Python exceptions do not roll back assignments).  The spec's error names
map to the Python exceptions as follows: `ActionError` is
`aiohttp.ClientResponseError` (raised by `raise_for_status`),
`MalformedResponseError` is `KeyError`, `EmptyQueueError` is `IndexError`
(from `list.pop(0)` on an empty list) and `EntityNotFoundError` is
`StopIteration` (from `next` on an exhausted `filter`).
-/

namespace ArtifactsMMO

/-- Decoded JSON values, as returned by `response.json()`.  Numbers are
modelled as integers (the fields the engine inspects are integral). -/
inductive Json where
  | null
  | bool (b : Bool)
  | num (n : Int)
  | str (s : String)
  | arr (elems : List Json)
  | obj (fields : List (String × Json))
deriving Repr

/-- The Python exceptions the embedded code can raise. -/
inductive PyError where
  /-- Python `KeyError`: dict subscript with a missing key (the spec's
  `MalformedResponseError`). -/
  | keyError
  /-- Python `TypeError`: subscripting / comparing a value of the wrong type. -/
  | typeError
  /-- Python `IndexError`: `list.pop(0)` on an empty list (the spec's
  `EmptyQueueError`). -/
  | indexError
  /-- Python `StopIteration`: `next` on an exhausted iterator (the spec's
  `EntityNotFoundError`). -/
  | stopIteration
  /-- Python `aiohttp.ClientResponseError`: non-2xx HTTP status (the spec's
  `ActionError`). -/
  | clientResponseError
deriving Repr, DecidableEq

/-- Python `d[k]` on a decoded JSON value with a string key: a dict lookup
returning the value for `k`, `KeyError` when the key is absent, and
`TypeError` when the value is not a dict.  (Decoded JSON dicts have
pairwise distinct keys, so taking the first binding is exact.) -/
def Json.getItem : Json → String → Except PyError Json
  | .obj fields, k =>
    match fields.find? (fun kv => kv.1 == k) with
    | some kv => .ok kv.2
    | none => .error .keyError
  | _, _ => .error .typeError

/-- Python `v == s` for a decoded JSON value `v` and a string literal `s`:
true exactly when `v` is the equal string (Python string equality against a
value of any other type is `False`, never an error). -/
def Json.eqStr : Json → String → Bool
  | .str t, s => t == s
  | _, _ => false

/-- Python `v > 0` as used on `task.cooldown`: defined for numbers
(`True`/`False` compare as `1`/`0`), a `TypeError` otherwise. -/
def Json.pyGtZero : Json → Except PyError Bool
  | .num n => .ok (decide (0 < n))
  | .bool b => .ok b
  |  _ => .error .typeError

/-! ## `datatypes.py`

The Python dataclasses perform no type checking: `from_json` stores the raw
decoded values straight into the fields, so the leaf fields below are
`Json`.  Each `json_data[key]` subscript can raise, and the accesses happen
in the source order. -/

/-- Embeds `datatypes.Scale`. -/
structure Scale where
  current_value : Json
  max_value : Json
deriving Repr

/-- Embeds `datatypes.Point2D`. -/
structure Point2D where
  x : Json
  y : Json
deriving Repr

/-- Embeds `datatypes.InGameTask`. -/
structure InGameTask where
  task_type : Json
  progress : Scale
deriving Repr

/-- Embeds `datatypes.Elemental`. -/
structure Elemental where
  fire : Json
  earth : Json
  water : Json
  air : Json
deriving Repr

/-- Embeds `datatypes.Skill`. -/
structure Skill where
  level : Json
  xp : Scale
deriving Repr

/-- Embeds `datatypes.GeneralItem`. -/
structure GeneralItem where
  quantity : Json
  slot : Json
  code : Json
deriving Repr

/-- Embeds `datatypes.Equipment`. -/
structure Equipment where
  weapon : Json
  shield : Json
  helmet : Json
  body_armor : Json
  leg_armor : Json
  boots : Json
  ring1 : Json
  ring2 : Json
  amulet : Json
  artifact1 : Json
  artifact2 : Json
  artifact3 : Json
  utility1 : GeneralItem
  utility2 : GeneralItem
deriving Repr

/-- Embeds `datatypes.CharacterData`. -/
structure CharacterData where
  name : Json
  account : Json
  skin : Json
  gold : Json
  hp : Scale
  position : Point2D
  combat : Skill
  mining : Skill
  woodcutting : Skill
  fishing : Skill
  weaponcrafting : Skill
  gearcrafting : Skill
  jewlercrafting : Skill
  cooking : Skill
  alchemy : Skill
  attack : Elemental
  dmg : Elemental
  res : Elemental
  task : Option InGameTask
  equipment : Equipment
  inventory : List GeneralItem
deriving Repr

/-- Embeds `InGameTask.from_json`. -/
def InGameTask.from_json (json_data : Json) : Except PyError InGameTask := do
  let tt ← json_data.getItem "task_type"
  let p ← json_data.getItem "task_progress"
  let tot ← json_data.getItem "task_total"
  pure { task_type := tt, progress := { current_value := p, max_value := tot } }

/-- Embeds `Elemental.from_json`. -/
def Elemental.from_json (json_data : Json) (pre : String) : Except PyError Elemental := do
  let f ← json_data.getItem (pre ++ "fire")
  let e ← json_data.getItem (pre ++ "earth")
  let w ← json_data.getItem (pre ++ "water")
  let a ← json_data.getItem (pre ++ "air")
  pure { fire := f, earth := e, water := w, air := a }

/-- Embeds `Skill.from_json`. -/
def Skill.from_json (json_data : Json) (pre : String) : Except PyError Skill := do
  let lv ← json_data.getItem (pre ++ "level")
  let xp ← json_data.getItem (pre ++ "xp")
  let mx ← json_data.getItem (pre ++ "max_xp")
  pure { level := lv, xp := { current_value := xp, max_value := mx } }

/-- Embeds `Equipment.from_json`. -/
def Equipment.from_json (json_data : Json) : Except PyError Equipment := do
  let weapon ← json_data.getItem "weapon_slot"
  let shield ← json_data.getItem "shield_slot"
  let helmet ← json_data.getItem "helmet_slot"
  let body_armor ← json_data.getItem "body_armor_slot"
  let leg_armor ← json_data.getItem "leg_armor_slot"
  let boots ← json_data.getItem "boots_slot"
  let ring1 ← json_data.getItem "ring1_slot"
  let ring2 ← json_data.getItem "ring2_slot"
  let amulet ← json_data.getItem "amulet_slot"
  let artifact1 ← json_data.getItem "artifact1_slot"
  let artifact2 ← json_data.getItem "artifact2_slot"
  let artifact3 ← json_data.getItem "artifact3_slot"
  let u1slot ← json_data.getItem "utility1_slot"
  let u1q ← json_data.getItem "utility1_slot_quantity"
  let u2slot ← json_data.getItem "utility2_slot"
  let u2q ← json_data.getItem "utility2_slot_quantity"
  pure { weapon := weapon, shield := shield, helmet := helmet,
         body_armor := body_armor, leg_armor := leg_armor, boots := boots,
         ring1 := ring1, ring2 := ring2, amulet := amulet,
         artifact1 := artifact1, artifact2 := artifact2, artifact3 := artifact3,
         utility1 := { slot := u1slot, code := .str "", quantity := u1q },
         utility2 := { slot := u2slot, code := .str "", quantity := u2q } }

/-- One element of the `CharacterData.from_json` inventory comprehension:
`GeneralItem(slot=item["slot"], code=item["code"], quantity=item["quantity"])`
(keyword arguments evaluate left to right). -/
def GeneralItem.of_json (item : Json) : Except PyError GeneralItem := do
  let s ← item.getItem "slot"
  let c ← item.getItem "code"
  let q ← item.getItem "quantity"
  pure { slot := s, code := c, quantity := q }

/-- The inventory comprehension `[GeneralItem(...) for item in data["inventory"]]`:
iterating anything that is not a JSON array either fails immediately or at
the first item subscript with a `TypeError`. -/
def parseInventory : Json → Except PyError (List GeneralItem)
  | .arr items => items.mapM GeneralItem.of_json
  | _ => .error .typeError

/-- Embeds `CharacterData.from_json`, with the subscripts in source order. -/
def CharacterData.from_json (data : Json) : Except PyError CharacterData := do
  let name ← data.getItem "name"
  let account ← data.getItem "account"
  let skin ← data.getItem "skin"
  let gold ← data.getItem "gold"
  let hp ← data.getItem "hp"
  let max_hp ← data.getItem "max_hp"
  let x ← data.getItem "x"
  let y ← data.getItem "y"
  let combat ← Skill.from_json data ""
  let mining ← Skill.from_json data "mining_"
  let woodcutting ← Skill.from_json data "woodcutting_"
  let fishing ← Skill.from_json data "fishing_"
  let weaponcrafting ← Skill.from_json data "weaponcrafting_"
  let gearcrafting ← Skill.from_json data "gearcrafting_"
  let jewlercrafting ← Skill.from_json data "jewelrycrafting_"
  let cooking ← Skill.from_json data "cooking_"
  let alchemy ← Skill.from_json data "alchemy_"
  let attack ← Elemental.from_json data "attack_"
  let dmg ← Elemental.from_json data "dmg_"
  let res ← Elemental.from_json data "res_"
  let task ← InGameTask.from_json data
  let equipment ← Equipment.from_json data
  let invJson ← data.getItem "inventory"
  let inventory ← parseInventory invJson
  pure { name := name, account := account, skin := skin, gold := gold,
         hp := { current_value := hp, max_value := max_hp },
         position := { x := x, y := y },
         combat := combat, mining := mining, woodcutting := woodcutting,
         fishing := fishing, weaponcrafting := weaponcrafting,
         gearcrafting := gearcrafting, jewlercrafting := jewlercrafting,
         cooking := cooking, alchemy := alchemy,
         attack := attack, dmg := dmg, res := res,
         task := some task, equipment := equipment, inventory := inventory }

/-! ## `networking.py` -/

/-- Embeds `networking.make_request`.  The HTTP exchange itself is external; its
result is abstracted as the pair of `statusOk` (whether the status code was
2xx, i.e. whether `response.raise_for_status()` passes) and `body` (the
decoded JSON of the response).  The function then returns
`(await response.json())["data"]`: a `raise_for_status` failure is
`ClientResponseError`, and the `["data"]` subscript can itself raise. -/
def make_request (statusOk : Bool) (body : Json) : Except PyError Json :=
  if statusOk then body.getItem "data" else .error .clientResponseError

/-! ## `character.py` — `Task` -/

/-- The immutable part of `character.Task`: the request description plus the
optional callback.  Callbacks are Python closures that receive the whole
`Character` object and mutate it; they are defunctionalised as indices into
a callback environment (`CallbackEnv` below), which keeps the `Task` type
first-order. -/
structure Task where
  url : String
  method : String := "POST"
  params : List (String × Json) := []
  callback : Option Nat := none
deriving Repr

/-- The mutable attributes of a `Task` as left by a successful
`Task.execute`: the parsed `character`, the raw `cooldown` value
(`data["cooldown"]["remaining_seconds"]`, stored unchecked) and the
`payload` dict. -/
structure TaskExecState where
  character : Option CharacterData
  cooldown : Json
  payload : List (String × Json)
deriving Repr

/-- Embeds `Task.execute`: call `make_request` (abstracted by the `statusOk`/`body`
oracle), then in source order set `self.character` from
`CharacterData.from_json(data["character"])`, set `self.cooldown` from
`data["cooldown"]["remaining_seconds"]`, and fill `self.payload` with every
binding of `data` whose key is neither `"cooldown"` nor `"character"`.
(`self.payload` starts as the empty dict and a decoded JSON dict has
pairwise distinct keys, so the insertion loop produces exactly the filtered
binding list.)  The final `match data` is reachable only with `data` a dict,
since the `data["character"]` subscript has already succeeded. -/
def Task.execute (_t : Task) (statusOk : Bool) (body : Json) :
    Except PyError TaskExecState :=
  match make_request statusOk body with
  | .error e => .error e
  | .ok data =>
    match data.getItem "character" with
    | .error e => .error e
    | .ok chJson =>
      match CharacterData.from_json chJson with
      | .error e => .error e
      | .ok ch =>
        match data.getItem "cooldown" with
        | .error e => .error e
        | .ok cdJson =>
          match cdJson.getItem "remaining_seconds" with
          | .error e => .error e
          | .ok remaining =>
            match data with
            | .obj fields =>
              .ok { character := some ch
                  , cooldown := remaining
                  , payload := fields.filter
                      (fun kv => kv.1 != "cooldown" && kv.1 != "character") }
            | _ => .error .typeError

/-! ## `character.py` — `Character` -/

/-- The dynamic contents of `Character.character_data`: unset before
`init`, the raw JSON record after `init` (the source assigns the record
found in the `/my/characters` list without parsing it), and a parsed
`CharacterData` after a task execution. -/
inductive CharState where
  | unset
  | raw (record : Json)
  | parsed (data : CharacterData)
deriving Repr

/-- Embeds `character.Character`: name, cooldown flag, task queue and current
character data. -/
structure Character where
  name : String
  on_cooldown : Bool := false
  tasks : List Task := []
  character_data : CharState := .unset
deriving Repr

/-- Environment giving the meaning of each defunctionalised callback: a
Python callback receives the `Character` (i.e. `self`) and the task's
payload dict, and may mutate the character arbitrarily (in the scripts it
only appends tasks via `add_task`). -/
def CallbackEnv := Nat → Character → List (String × Json) → Character

/-- Embeds `Character.add_task`: append to the tail of the queue. -/
def Character.add_task (c : Character) (t : Task) : Character :=
  { c with tasks := c.tasks ++ [t] }

/-- Python `self.tasks.pop(0)`: removes and returns the head;
`IndexError` on an empty list, which is left unchanged. -/
def listPop0 : List Task → Except PyError (Task × List Task)
  | [] => .error .indexError
  | t :: rest => .ok (t, rest)

/-- Observable steps of one `run_task` call, in program order.  `slept`
records the duration passed to `asyncio.sleep` together with the value of
`on_cooldown` while the runner is suspended. -/
inductive Event where
  /-- The pop `self.tasks.pop(0)` returned this task. -/
  | popped (t : Task)
  /-- The assignment `self.character_data = task.character` ran with this value. -/
  | stateUpdated (cd : CharacterData)
  /-- The call `task.callback(self, task.payload)` was entered with these arguments. -/
  | callbackInvoked (c : Character) (payload : List (String × Json))
  /-- the callback returned, leaving this queue. -/
  | callbackReturned (queue : List Task)
  /-- The assignment `self.on_cooldown = value` ran. -/
  | cooldownSet (value : Bool)
  /-- The suspension `await sleep(duration)` ran while `on_cooldown = oc`. -/
  | slept (duration : Json) (oc : Bool)
deriving Repr

/-- Result of `run_task`/`run_all`: either a normal return or a Python
exception.  An exception carries the `Character` as mutated up to the point
of the raise — Python assignments are not rolled back by an exception. -/
inductive RunResult where
  | ok (c : Character) (trace : List Event)
  | err (e : PyError) (c : Character) (trace : List Event)
deriving Repr

/-- Embeds `Character.run_task`, with the statements in source order:
pop the head task (`IndexError` if the queue is empty), `await
task.execute()` (a failure propagates, with the pop already done), then
`if task.character is not None: self.character_data = task.character`,
then `if task.callback is not None: task.callback(self, task.payload)`,
then `if task.cooldown > 0: self.on_cooldown = True; await
sleep(task.cooldown); self.on_cooldown = False`.  The network response for
the embedded `make_request` call is the `(statusOk, body)` oracle. -/
def Character.run_task (c : Character) (cbs : CallbackEnv) (statusOk : Bool)
    (body : Json) : RunResult :=
  match listPop0 c.tasks with
  | .error e => .err e c []
  | .ok (t, rest) =>
    let c1 : Character := { c with tasks := rest }
    match t.execute statusOk body with
    | .error e => .err e c1 [.popped t]
    | .ok ex =>
      let (c2, tr2) : Character × List Event :=
        match ex.character with
        | some cd => ({ c1 with character_data := .parsed cd }, [.stateUpdated cd])
        | none => (c1, [])
      let (c3, tr3) : Character × List Event :=
        match t.callback with
        | some i =>
          let c' := cbs i c2 ex.payload
          (c', [.callbackInvoked c2 ex.payload, .callbackReturned c'.tasks])
        | none => (c2, [])
      match ex.cooldown.pyGtZero with
      | .error e => .err e c3 ([Event.popped t] ++ tr2 ++ tr3)
      | .ok true =>
        let c4 : Character := { c3 with on_cooldown := true }
        let c5 : Character := { c4 with on_cooldown := false }
        .ok c5 ([Event.popped t] ++ tr2 ++ tr3
                ++ [.cooldownSet true, .slept ex.cooldown c4.on_cooldown,
                    .cooldownSet false])
      | .ok false => .ok c3 ([Event.popped t] ++ tr2 ++ tr3)

/-- The `next(filter(lambda char: char["name"] == self.name, data))` call of
`Character.init`: walk the list, testing each record's `"name"` entry (a
record without one raises `KeyError`); an exhausted iterator raises
`StopIteration`. -/
def findByName (name : String) : List Json → Except PyError Json
  | [] => .error .stopIteration
  | r :: rs =>
    match r.getItem "name" with
    | .error e => .error e
    | .ok v => if v.eqStr name then .ok r else findByName name rs

/-- Result of `Character.init`: as for `RunResult`, a failure carries the
character as mutated so far (`self.tasks = []` has already run). -/
inductive InitResult where
  | ok (c : Character)
  | err (e : PyError) (c : Character)
deriving Repr

/-- Embeds `Character.init`: set `self.tasks = []`, fetch the character list (the
`entities` oracle stands for the decoded result of
`make_request("/my/characters")`), and assign the first record whose
`"name"` equals `self.name` — unparsed — to `self.character_data`. -/
def Character.init (c : Character) (entities : List Json) : InitResult :=
  let c1 : Character := { c with tasks := [] }
  match findByName c.name entities with
  | .ok record => .ok { c1 with character_data := .raw record }
  | .error e => .err e c1

/-! ## The runner loop

The strategy scripts drive a character with `await char.run_all()`; that
method is not among the source files (only its call sites are). -/

/-- Result of a `run_all` loop: normal termination (queue empty), a
propagated failure, or exhaustion of the simulation budget. -/
inductive RunAllResult where
  | done (c : Character)
  | failed (e : PyError) (c : Character)
  | fuelOut (c : Character)
deriving Repr

/-- Modelled from the spec: `Character.run_all`, the runner loop invoked by
the strategy scripts (`await char.run_all()`) but missing from the source
files.  Per the spec (§4.3): each iteration stops normally if the queue is
empty, otherwise runs one task via `run_task`; a task failure is propagated
to the caller and stops the loop.  `fuel` bounds the number of iterations
(continuations may refill the queue forever) and `resps` supplies one
simulated network response per executed task. -/
def Character.run_all (c : Character) (cbs : CallbackEnv) :
    Nat → List (Bool × Json) → RunAllResult × List Event
  | 0, _ => (.fuelOut c, [])
  | fuel + 1, resps =>
    if c.tasks.isEmpty then (.done c, [])
    else
      match resps with
      | [] => (.fuelOut c, [])
      | (s, b) :: rs =>
        match c.run_task cbs s b with
        | .err e c' tr => (.failed e c', tr)
        | .ok c' tr =>
          let (result, tr') := c'.run_all cbs fuel rs
          (result, tr ++ tr')

/-! ## `__main__.py` -/

/-- Embeds `get_amount_by_code`, written as the source's first-match loop over
`character.character_data.inventory`: return the `quantity` of the first
inventory item whose `code` equals the given string, `0` when the loop
falls through.  (Python's `item.code == code` compares a decoded JSON
value with a `str`.) -/
def get_amount_by_code_loop : List GeneralItem → String → Json
  | [], _ => .num 0
  | item :: rest, code =>
    if item.code.eqStr code then item.quantity else get_amount_by_code_loop rest code

/-- Embeds `get_amount_by_code` on a parsed character. -/
def get_amount_by_code (cd : CharacterData) (code : String) : Json :=
  get_amount_by_code_loop cd.inventory code

/-! ## Concrete sample data

A fully-formed character record and API response, used to instantiate the
theorems below at concrete inputs. -/

/-- The three bindings one `Skill.from_json` call reads. -/
def sampleSkillFields (p : String) : List (String × Json) :=
  [(p ++ "level", .num 4), (p ++ "xp", .num 25), (p ++ "max_xp", .num 150)]

/-- The four bindings one `Elemental.from_json` call reads. -/
def sampleElemFields (p : String) : List (String × Json) :=
  [(p ++ "fire", .num 0), (p ++ "earth", .num 1),
   (p ++ "water", .num 2), (p ++ "air", .num 3)]

/-- A character record carrying every key `CharacterData.from_json` reads. -/
def sampleCharJson : Json :=
  .obj ([("name", .str "Bob"), ("account", .str "acc"), ("skin", .str "men1"),
         ("gold", .num 5), ("hp", .num 100), ("max_hp", .num 120),
         ("x", .num 0), ("y", .num 1)]
    ++ sampleSkillFields "" ++ sampleSkillFields "mining_"
    ++ sampleSkillFields "woodcutting_" ++ sampleSkillFields "fishing_"
    ++ sampleSkillFields "weaponcrafting_" ++ sampleSkillFields "gearcrafting_"
    ++ sampleSkillFields "jewelrycrafting_" ++ sampleSkillFields "cooking_"
    ++ sampleSkillFields "alchemy_"
    ++ sampleElemFields "attack_" ++ sampleElemFields "dmg_"
    ++ sampleElemFields "res_"
    ++ [("task_type", .str "monsters"), ("task_progress", .num 0),
        ("task_total", .num 80),
        ("weapon_slot", .str "wooden_stick"), ("shield_slot", .str ""),
        ("helmet_slot", .str ""), ("body_armor_slot", .str ""),
        ("leg_armor_slot", .str ""), ("boots_slot", .str ""),
        ("ring1_slot", .str ""), ("ring2_slot", .str ""),
        ("amulet_slot", .str ""), ("artifact1_slot", .str ""),
        ("artifact2_slot", .str ""), ("artifact3_slot", .str ""),
        ("utility1_slot", .str ""), ("utility1_slot_quantity", .num 0),
        ("utility2_slot", .str ""), ("utility2_slot_quantity", .num 0),
        ("inventory", .arr [.obj [("slot", .num 1), ("code", .str "ash_wood"),
                                  ("quantity", .num 3)]])])

/-- The parsed form of one `sampleSkillFields` group. -/
def sampleSkill : Skill :=
  { level := .num 4, xp := { current_value := .num 25, max_value := .num 150 } }

/-- The parsed form of one `sampleElemFields` group. -/
def sampleElem : Elemental :=
  { fire := .num 0, earth := .num 1, water := .num 2, air := .num 3 }

/-- The parsed form of `sampleCharJson`. -/
def sampleCharData : CharacterData :=
  { name := .str "Bob", account := .str "acc", skin := .str "men1",
    gold := .num 5,
    hp := { current_value := .num 100, max_value := .num 120 },
    position := { x := .num 0, y := .num 1 },
    combat := sampleSkill, mining := sampleSkill, woodcutting := sampleSkill,
    fishing := sampleSkill, weaponcrafting := sampleSkill,
    gearcrafting := sampleSkill, jewlercrafting := sampleSkill,
    cooking := sampleSkill, alchemy := sampleSkill,
    attack := sampleElem, dmg := sampleElem, res := sampleElem,
    task := some { task_type := .str "monsters",
                   progress := { current_value := .num 0, max_value := .num 80 } },
    equipment := { weapon := .str "wooden_stick", shield := .str "",
                   helmet := .str "", body_armor := .str "",
                   leg_armor := .str "", boots := .str "",
                   ring1 := .str "", ring2 := .str "", amulet := .str "",
                   artifact1 := .str "", artifact2 := .str "",
                   artifact3 := .str "",
                   utility1 := { slot := .str "", code := .str "",
                                 quantity := .num 0 },
                   utility2 := { slot := .str "", code := .str "",
                                 quantity := .num 0 } },
    inventory := [{ slot := .num 1, code := .str "ash_wood",
                    quantity := .num 3 }] }

/-- A successful action response: the `data` dict of the API reply, with a
cooldown of 3 seconds and one extra key beside the reserved ones. -/
def sampleData : Json :=
  .obj [("cooldown", .obj [("remaining_seconds", .num 3)]),
        ("character", sampleCharJson),
        ("fight", .str "win")]

/-- The full response body wrapping `sampleData`. -/
def sampleBody : Json := .obj [("data", sampleData)]

/-- Evaluation fact: `CharacterData.from_json` parses the sample record to
`sampleCharData`. -/
theorem sampleCharJson_parses :
    CharacterData.from_json sampleCharJson = .ok sampleCharData := by
  rfl

/-- A task with no callback, as the concrete instance for the theorems. -/
def sampleTask : Task := { url := "/my/Bob/action/fight" }

/-- A callback environment in which every callback is a no-op. -/
def noCallbacks : CallbackEnv := fun _ ch _ => ch

/-! ## Helper lemmas -/

/-- The fall-through case of the `get_amount_by_code` loop. -/
theorem get_amount_by_code_loop_eq_zero :
    ∀ (l : List GeneralItem) (code : String),
      (∀ item ∈ l, item.code.eqStr code = false) →
      get_amount_by_code_loop l code = .num 0
  | [], _, _ => rfl
  | item :: rest, code, h => by
    unfold get_amount_by_code_loop
    rw [h item (List.mem_cons_self item rest)]
    simp only [Bool.false_eq_true, if_false]
    exact get_amount_by_code_loop_eq_zero rest code
      (fun j hj => h j (List.mem_cons_of_mem item hj))

/-- The first-match case of the `get_amount_by_code` loop. -/
theorem get_amount_by_code_loop_eq_first :
    ∀ (pre : List GeneralItem) (item : GeneralItem) (post : List GeneralItem)
      (code : String),
      item.code.eqStr code = true →
      (∀ j ∈ pre, j.code.eqStr code = false) →
      get_amount_by_code_loop (pre ++ item :: post) code = item.quantity
  | [], item, post, code, hmatch, _ => by
    unfold get_amount_by_code_loop
    simp only [List.nil_append, hmatch, if_true]
  | j :: pre, item, post, code, hmatch, hpre => by
    unfold get_amount_by_code_loop
    rw [List.cons_append]
    simp only [hpre j (List.mem_cons_self j pre), Bool.false_eq_true, if_false]
    exact get_amount_by_code_loop_eq_first pre item post code hmatch
      (fun q hq => hpre q (List.mem_cons_of_mem j hq))

/-- Any successful `Task.execute` went through a 2xx response whose `data`
entry is a dict; the task then holds a parsed character (never `none`) and
the payload is the dict minus the two reserved keys. -/
theorem Task.execute_ok_shape {t : Task} {s : Bool} {b : Json}
    {ex : TaskExecState} (h : Task.execute t s b = .ok ex) :
    ∃ fields ch, make_request s b = .ok (.obj fields) ∧
      ex.character = some ch ∧
      ex.payload = fields.filter
        (fun kv => kv.1 != "cooldown" && kv.1 != "character") := by
  unfold Task.execute at h
  repeat' split at h
  all_goals simp_all
  subst h
  exact ⟨⟨_, rfl⟩, rfl⟩

/-- Evaluation of `run_task` when the head task executes successfully:
the result is determined by the callback field and by the comparison of
the cooldown against zero. -/
theorem run_task_eval {c : Character} {cbs : CallbackEnv} {s : Bool} {b : Json}
    {t : Task} {rest : List Task} {ex : TaskExecState} {cd : CharacterData}
    (hq : c.tasks = t :: rest)
    (hex : Task.execute t s b = .ok ex) (hch : ex.character = some cd) :
    c.run_task cbs s b =
      (let c2 : Character := { c with tasks := rest, character_data := .parsed cd }
       let (c3, tr3) : Character × List Event :=
         match t.callback with
         | some i => (cbs i c2 ex.payload,
             [.callbackInvoked c2 ex.payload,
              .callbackReturned (cbs i c2 ex.payload).tasks])
         | none => (c2, [])
       match ex.cooldown.pyGtZero with
       | .error e => .err e c3 ([Event.popped t, .stateUpdated cd] ++ tr3)
       | .ok true => .ok { c3 with on_cooldown := false }
           ([Event.popped t, .stateUpdated cd] ++ tr3 ++
             [.cooldownSet true, .slept ex.cooldown true, .cooldownSet false])
       | .ok false => .ok c3 ([Event.popped t, .stateUpdated cd] ++ tr3)) := by
  unfold Character.run_task
  rw [hq]
  simp only [listPop0]
  rw [hex]
  simp only [hch]
  cases t.callback
  all_goals
    cases hgt : ex.cooldown.pyGtZero
  case _ e => rfl
  case _ g => cases g <;> rfl
  case _ e => rfl
  case _ g => cases g <;> rfl

/-! ## Claims -/

/-- Claim C5: for every successful execution of a task descriptor, the payload
equals the full response map with exactly the two reserved keys `cooldown`
and `character` removed: a binding belongs to the payload iff it is a
binding of the response whose key is not reserved (so every other key keeps
its response value), and neither reserved key ever appears in the
payload. -/
theorem C5_payload_strips_reserved (t : Task) (s : Bool) (b : Json)
    (ex : TaskExecState) (h : Task.execute t s b = .ok ex) :
    ∃ fields, make_request s b = .ok (.obj fields) ∧
      ex.payload = fields.filter
        (fun kv => kv.1 != "cooldown" && kv.1 != "character") ∧
      (∀ kv : String × Json, kv ∈ ex.payload ↔
        (kv ∈ fields ∧ kv.1 ≠ "cooldown" ∧ kv.1 ≠ "character")) ∧
      (∀ kv ∈ ex.payload, kv.1 ≠ "cooldown" ∧ kv.1 ≠ "character") := by
  obtain ⟨fields, ch, hmk, hch, hpl⟩ := Task.execute_ok_shape h
  have hmem : ∀ kv : String × Json, kv ∈ ex.payload ↔
      (kv ∈ fields ∧ kv.1 ≠ "cooldown" ∧ kv.1 ≠ "character") := by
    intro kv
    rw [hpl, List.mem_filter]
    simp [Bool.and_eq_true, bne_iff_ne, and_assoc]
  exact ⟨fields, hmk, hpl, hmem, fun kv hkv => ((hmem kv).mp hkv).2⟩

/-- The post-execution task attributes for the sample response. -/
def sampleExec : TaskExecState :=
  { character := some sampleCharData, cooldown := .num 3,
    payload := [("fight", .str "win")] }

/-- Evaluation fact: `Task.execute` on the sample response succeeds with
`sampleExec`. -/
theorem sample_execute_ok :
    Task.execute sampleTask true sampleBody = .ok sampleExec := by
  rfl

/-- Witness for C5: the sample response, whose only non-reserved key is
`fight`. -/
theorem C5_witness :
    ∃ fields, make_request true sampleBody = .ok (.obj fields) ∧
      sampleExec.payload = fields.filter
        (fun kv => kv.1 != "cooldown" && kv.1 != "character") ∧
      (∀ kv : String × Json, kv ∈ sampleExec.payload ↔
        (kv ∈ fields ∧ kv.1 ≠ "cooldown" ∧ kv.1 ≠ "character")) ∧
      (∀ kv ∈ sampleExec.payload, kv.1 ≠ "cooldown" ∧ kv.1 ≠ "character") :=
  C5_payload_strips_reserved sampleTask true sampleBody sampleExec
    sample_execute_ok

/-- Claim C1: for every successfully executed task, the runner replaces the
character's state with the outcome's state unconditionally: when `run_task`
completes for a task whose execution produced `ex`, the final
`character_data` is exactly the parsed state carried by `ex` (no merge with
the prior state), and no "skip if missing" case can fire because every
successful outcome carries a state (`ex.character` is never `none`).  The
continuation, if any, is assumed to leave `character_data` alone — per the
spec it only decides what to enqueue. -/
theorem C1_state_replacement (c c' : Character) (cbs : CallbackEnv) (s : Bool)
    (b : Json) (t : Task) (rest : List Task) (ex : TaskExecState)
    (tr : List Event)
    (hq : c.tasks = t :: rest)
    (hex : Task.execute t s b = .ok ex)
    (hcb : ∀ i, t.callback = some i →
      ∀ ch p, (cbs i ch p).character_data = ch.character_data)
    (hrun : c.run_task cbs s b = .ok c' tr) :
    (∃ cd, ex.character = some cd ∧ c'.character_data = .parsed cd) ∧
    (∀ (t₂ : Task) (s₂ : Bool) (b₂ : Json) (ex₂ : TaskExecState),
      Task.execute t₂ s₂ b₂ = .ok ex₂ → ex₂.character ≠ none) := by
  constructor
  · obtain ⟨fields, cd, hmk, hch, hpl⟩ := Task.execute_ok_shape hex
    refine ⟨cd, hch, ?_⟩
    rw [run_task_eval hq hex hch] at hrun
    simp only at hrun
    cases hcall : t.callback with
    | none =>
      rw [hcall] at hrun
      simp only at hrun
      cases hgt : ex.cooldown.pyGtZero with
      | error e => rw [hgt] at hrun; cases hrun
      | ok g =>
        rw [hgt] at hrun
        cases g <;> (cases hrun; rfl)
    | some i =>
      rw [hcall] at hrun
      simp only at hrun
      cases hgt : ex.cooldown.pyGtZero with
      | error e => rw [hgt] at hrun; cases hrun
      | ok g =>
        rw [hgt] at hrun
        cases g <;> cases hrun <;>
          simp only [hcb i hcall]
  · intro t₂ s₂ b₂ ex₂ h₂
    obtain ⟨_, _, _, hch₂, _⟩ := Task.execute_ok_shape h₂
    simp [hch₂]

/-- Witness for C1: running the sample character's single task against the
sample response ends with the character data equal to the parsed sample
state. -/
theorem C1_witness :
    (∃ cd, sampleExec.character = some cd ∧
      (CharState.parsed sampleCharData) = .parsed cd) ∧
    (∀ (t₂ : Task) (s₂ : Bool) (b₂ : Json) (ex₂ : TaskExecState),
      Task.execute t₂ s₂ b₂ = .ok ex₂ → ex₂.character ≠ none) := by
  have h := C1_state_replacement { name := "Bob", tasks := [sampleTask] }
    { name := "Bob", tasks := [], character_data := .parsed sampleCharData,
      on_cooldown := false }
    noCallbacks true sampleBody sampleTask [] sampleExec
    [Event.popped sampleTask, .stateUpdated sampleCharData,
     .cooldownSet true, .slept (.num 3) true, .cooldownSet false]
    rfl sample_execute_ok
    (fun i hi => by cases hi)
    (by rfl)
  obtain ⟨⟨cd, hcd, hparsed⟩, hnone⟩ := h
  exact ⟨⟨cd, hcd, hparsed⟩, hnone⟩

/-- Claim C4: for every executed task whose resulting cooldown is the number
`n`: if `n > 0` the runner sets `on_cooldown` to `true`, suspends for
exactly `n` seconds — with `on_cooldown` reading `true` during the
suspension and at no other point — and then sets it back to `false`; if
`n ≤ 0` no wait occurs and `on_cooldown` is never set (it keeps its prior
value).  The continuation, if any, is assumed to leave `on_cooldown`
alone — per the spec it only decides what to enqueue. -/
theorem C4_cooldown_protocol (c c' : Character) (cbs : CallbackEnv) (s : Bool)
    (b : Json) (t : Task) (rest : List Task) (ex : TaskExecState)
    (tr : List Event) (n : Int)
    (hq : c.tasks = t :: rest)
    (hex : Task.execute t s b = .ok ex)
    (hn : ex.cooldown = .num n)
    (hcb : ∀ i, t.callback = some i →
      ∀ ch p, (cbs i ch p).on_cooldown = ch.on_cooldown)
    (hrun : c.run_task cbs s b = .ok c' tr) :
    (0 < n →
      (∃ pre, tr = pre ++
          [.cooldownSet true, .slept (.num n) true, .cooldownSet false] ∧
        (∀ v, Event.cooldownSet v ∉ pre) ∧
        (∀ d oc, Event.slept d oc ∉ pre)) ∧
      c'.on_cooldown = false) ∧
    (n ≤ 0 →
      (∀ v, Event.cooldownSet v ∉ tr) ∧
      (∀ d oc, Event.slept d oc ∉ tr) ∧
      c'.on_cooldown = c.on_cooldown) := by
  obtain ⟨fields, cd, hmk, hch, hpl⟩ := Task.execute_ok_shape hex
  rw [run_task_eval hq hex hch] at hrun
  simp only at hrun
  have hgt : ex.cooldown.pyGtZero = .ok (decide (0 < n)) := by
    rw [hn]; rfl
  constructor
  · intro hpos
    rw [hgt, decide_eq_true_eq.mpr hpos] at hrun
    cases hcall : t.callback with
    | none =>
      rw [hcall] at hrun
      cases hrun
      rw [hn]
      refine ⟨⟨[Event.popped t, .stateUpdated cd], rfl, ?_, ?_⟩, rfl⟩
      · intro v hv
        simp at hv
      · intro d oc hv
        simp at hv
    | some i =>
      rw [hcall] at hrun
      cases hrun
      rw [hn]
      refine ⟨⟨[Event.popped t, .stateUpdated cd,
        .callbackInvoked { c with tasks := rest, character_data := .parsed cd }
          ex.payload,
        .callbackReturned
          (cbs i { c with tasks := rest, character_data := .parsed cd }
            ex.payload).tasks], rfl, ?_, ?_⟩, rfl⟩
      · intro v hv
        simp at hv
      · intro d oc hv
        simp at hv
  · intro hneg
    rw [hgt, decide_eq_false_iff_not.mpr (not_lt.mpr hneg)] at hrun
    cases hcall : t.callback with
    | none =>
      rw [hcall] at hrun
      cases hrun
      refine ⟨?_, ?_, rfl⟩
      · intro v hv
        simp at hv
      · intro d oc hv
        simp at hv
    | some i =>
      rw [hcall] at hrun
      cases hrun
      refine ⟨?_, ?_, ?_⟩
      · intro v hv
        simp at hv
      · intro d oc hv
        simp at hv
      · exact hcb i hcall { c with tasks := rest, character_data := .parsed cd }
          ex.payload

/-- Witness for C4: the sample response carries a 3-second cooldown, so the
trace of the sample run ends with the set/sleep/clear triple. -/
theorem C4_witness :
    (0 < (3 : Int) →
      (∃ pre, ([Event.popped sampleTask, .stateUpdated sampleCharData,
          .cooldownSet true, .slept (.num 3) true, .cooldownSet false]
            : List Event) = pre ++
          [.cooldownSet true, .slept (.num 3) true, .cooldownSet false] ∧
        (∀ v, Event.cooldownSet v ∉ pre) ∧
        (∀ d oc, Event.slept d oc ∉ pre)) ∧
      ({ name := "Bob", tasks := [],
         character_data := .parsed sampleCharData,
         on_cooldown := false } : Character).on_cooldown = false) ∧
    ((3 : Int) ≤ 0 →
      (∀ v, Event.cooldownSet v ∉
        ([Event.popped sampleTask, .stateUpdated sampleCharData,
          .cooldownSet true, .slept (.num 3) true, .cooldownSet false]
            : List Event)) ∧
      (∀ d oc, Event.slept d oc ∉
        ([Event.popped sampleTask, .stateUpdated sampleCharData,
          .cooldownSet true, .slept (.num 3) true, .cooldownSet false]
            : List Event)) ∧
      ({ name := "Bob", tasks := [],
         character_data := .parsed sampleCharData,
         on_cooldown := false } : Character).on_cooldown =
        ({ name := "Bob", tasks := [sampleTask] } : Character).on_cooldown) :=
  C4_cooldown_protocol { name := "Bob", tasks := [sampleTask] }
    { name := "Bob", tasks := [], character_data := .parsed sampleCharData,
      on_cooldown := false }
    noCallbacks true sampleBody sampleTask [] sampleExec
    [Event.popped sampleTask, .stateUpdated sampleCharData,
     .cooldownSet true, .slept (.num 3) true, .cooldownSet false]
    3 rfl sample_execute_ok rfl
    (fun i hi => by cases hi)
    (by rfl)

/-- Claim C3: for every executed task carrying a continuation, the runner
invokes the continuation with the current (freshly replaced) entity state
and the task's payload after the state update and before any cooldown
wait; the descriptors the continuation appends are present at the tail of
the queue immediately after the callback returns, before the runner
sleeps: the trace starts with pop, state update, callback entry on the
updated state, callback return with queue `rest ++ newTasks`, and every
sleep event lies strictly after these. -/
theorem C3_continuation_before_cooldown (c c' : Character) (cbs : CallbackEnv)
    (s : Bool) (b : Json) (t : Task) (rest : List Task) (i : Nat)
    (ex : TaskExecState) (cd : CharacterData) (tr : List Event)
    (newTasks : List Task)
    (hq : c.tasks = t :: rest)
    (hcall : t.callback = some i)
    (hex : Task.execute t s b = .ok ex)
    (hch : ex.character = some cd)
    (happend : ∀ ch p, cbs i ch p = { ch with tasks := ch.tasks ++ newTasks })
    (hrun : c.run_task cbs s b = .ok c' tr) :
    ∃ post,
      tr = [Event.popped t, .stateUpdated cd,
            .callbackInvoked
              { c with tasks := rest, character_data := .parsed cd }
              ex.payload,
            .callbackReturned (rest ++ newTasks)] ++ post ∧
      (∀ d oc, Event.slept d oc ∈ tr → Event.slept d oc ∈ post) := by
  rw [run_task_eval hq hex hch] at hrun
  simp only [hcall, happend] at hrun
  cases hgt : ex.cooldown.pyGtZero with
  | error e => rw [hgt] at hrun; cases hrun
  | ok g =>
    rw [hgt] at hrun
    cases g with
    | true =>
      cases hrun
      refine ⟨[.cooldownSet true, .slept ex.cooldown true, .cooldownSet false],
        rfl, ?_⟩
      intro d oc hmem
      simp at hmem ⊢
      exact hmem
    | false =>
      cases hrun
      refine ⟨[], rfl, ?_⟩
      intro d oc hmem
      simp at hmem

/-- A callback environment whose only callback appends one fixed task. -/
def appendOneCallback (extra : Task) : CallbackEnv :=
  fun _ ch _ => { ch with tasks := ch.tasks ++ [extra] }

/-- A task carrying callback `0`, for the continuation witness. -/
def sampleCbTask : Task := { url := "/my/Bob/action/gathering", callback := some 0 }

/-- Witness for C3: a gathering task whose continuation re-enqueues one
task; the appended descriptor sits at the queue tail when the callback
returns, before the cooldown wait. -/
theorem C3_witness :
    ∃ post,
      (([Event.popped sampleCbTask, .stateUpdated sampleCharData,
        .callbackInvoked
          { name := "Bob", tasks := [], character_data := .parsed sampleCharData,
            on_cooldown := false }
          [("fight", .str "win")],
        .callbackReturned [sampleTask],
        .cooldownSet true, .slept (.num 3) true, .cooldownSet false])
          : List Event) =
        [Event.popped sampleCbTask, .stateUpdated sampleCharData,
         .callbackInvoked
           { name := "Bob", tasks := [], character_data := .parsed sampleCharData,
             on_cooldown := false }
           [("fight", .str "win")],
         .callbackReturned ([] ++ [sampleTask])] ++ post ∧
      (∀ d oc, Event.slept d oc ∈
          ([Event.popped sampleCbTask, .stateUpdated sampleCharData,
            .callbackInvoked
              { name := "Bob", tasks := [],
                character_data := .parsed sampleCharData, on_cooldown := false }
              [("fight", .str "win")],
            .callbackReturned [sampleTask],
            .cooldownSet true, .slept (.num 3) true, .cooldownSet false]
              : List Event) →
        Event.slept d oc ∈ post) :=
  C3_continuation_before_cooldown
    { name := "Bob", tasks := [sampleCbTask] }
    { name := "Bob", tasks := [sampleTask],
      character_data := .parsed sampleCharData, on_cooldown := false }
    (appendOneCallback sampleTask) true sampleBody sampleCbTask [] 0 sampleExec
    sampleCharData
    [Event.popped sampleCbTask, .stateUpdated sampleCharData,
     .callbackInvoked
       { name := "Bob", tasks := [], character_data := .parsed sampleCharData,
         on_cooldown := false }
       [("fight", .str "win")],
     .callbackReturned [sampleTask],
     .cooldownSet true, .slept (.num 3) true, .cooldownSet false]
    [sampleTask]
    rfl rfl (by rfl) rfl (fun ch p => rfl) (by rfl)

/-- The tasks popped during a trace, in order. -/
def poppedOf (tr : List Event) : List Task :=
  tr.filterMap fun e =>
    match e with
    | .popped t => some t
    | _ => none

/-- Embedding fact: `Task.execute` reads nothing from the descriptor beyond what
`make_request` (here the oracle) consumes, so its result does not depend on
the descriptor. -/
theorem Task.execute_indep (t t' : Task) (s : Bool) (b : Json) :
    Task.execute t s b = Task.execute t' s b := rfl

/-- A simulated network response on which any task execution fully succeeds
and yields a numeric cooldown. -/
def goodResp (r : Bool × Json) : Prop :=
  ∃ (ex : TaskExecState) (n : Int),
    Task.execute { url := "" } r.1 r.2 = .ok ex ∧ ex.cooldown = Json.num n

/-- Evaluation of `run_task` on a callback-free head task with a successful execution and
numeric cooldown: it succeeds, the queue becomes the old tail, and exactly
the head task was popped. -/
theorem run_task_ok_no_callback {c : Character} (cbs : CallbackEnv) {s : Bool}
    {b : Json} {t : Task} {rest : List Task} {ex : TaskExecState}
    {cd : CharacterData} {n : Int}
    (hq : c.tasks = t :: rest) (hcall : t.callback = none)
    (hex : Task.execute t s b = .ok ex) (hch : ex.character = some cd)
    (hn : ex.cooldown = .num n) :
    ∃ c' tr, c.run_task cbs s b = .ok c' tr ∧ c'.tasks = rest ∧
      poppedOf tr = [t] := by
  rw [run_task_eval hq hex hch]
  simp only [hcall]
  have hgt : ex.cooldown.pyGtZero = .ok (decide (0 < n)) := by rw [hn]; rfl
  rw [hgt]
  cases decide (0 < n)
  · exact ⟨_, _, rfl, rfl, rfl⟩
  · exact ⟨_, _, rfl, rfl, rfl⟩

/-- The loop of C2: with no continuations on the queue and one good
response per task, `run_all` drains the queue in order. -/
theorem run_all_no_callbacks (cbs : CallbackEnv) :
    ∀ (ts : List Task) (resps : List (Bool × Json)) (c : Character),
      c.tasks = ts → (∀ t ∈ ts, t.callback = none) →
      ts.length = resps.length → (∀ r ∈ resps, goodResp r) →
      ∃ c' tr, c.run_all cbs (ts.length + 1) resps = (.done c', tr) ∧
        c'.tasks = [] ∧ poppedOf tr = ts
  | [], resps, c, hq, _, hlen, _ => by
    have hr : resps = [] := List.eq_nil_of_length_eq_zero hlen.symm
    subst hr
    refine ⟨c, [], ?_, hq, rfl⟩
    unfold Character.run_all
    simp [hq]
  | t :: ts, resps, c, hq, hcb, hlen, hgood => by
    obtain ⟨s, b, rs, hr⟩ : ∃ s b rs, resps = (s, b) :: rs := by
      cases resps with
      | nil => simp at hlen
      | cons r rs => exact ⟨r.1, r.2, rs, by rw [Prod.mk.eta]⟩
    subst hr
    obtain ⟨ex, n, hex0, hn⟩ := hgood (s, b) (List.mem_cons_self _ _)
    have hex : Task.execute t s b = .ok ex :=
      (Task.execute_indep t { url := "" } s b).trans hex0
    obtain ⟨fields, cd, hmk, hch, hpl⟩ := Task.execute_ok_shape hex
    obtain ⟨c1, tr1, hrun, hq1, hpop⟩ :=
      run_task_ok_no_callback cbs hq
        (hcb t (List.mem_cons_self t ts)) hex hch hn
    obtain ⟨c', tr', hall, hq', hpop'⟩ :=
      run_all_no_callbacks cbs ts rs c1 hq1
        (fun q hqmem => hcb q (List.mem_cons_of_mem t hqmem))
        (by simpa using hlen)
        (fun r hrmem => hgood r (List.mem_cons_of_mem _ hrmem))
    refine ⟨c', tr1 ++ tr', ?_, hq', ?_⟩
    · unfold Character.run_all
      rw [hq]
      simp only [List.isEmpty_cons, Bool.false_eq_true, if_false]
      rw [hrun]
      simp only [List.length_cons]
      rw [hall]
    · unfold poppedOf
      rw [List.filterMap_append]
      unfold poppedOf at hpop hpop'
      rw [hpop, hpop']
      rfl

/-- Claim C2: for every finite sequence of task descriptors enqueued on one
entity's queue, none of which has a continuation, repeatedly running tasks
until the queue is empty (the `run_all` loop, given one successful
response per task) executes the descriptors exactly in the order they were
enqueued — the popped-task sequence of the trace is the queue itself, FIFO
— one at a time, and leaves the queue empty afterward. -/
theorem C2_fifo_order (cbs : CallbackEnv) (c : Character)
    (resps : List (Bool × Json))
    (hcb : ∀ t ∈ c.tasks, t.callback = none)
    (hlen : c.tasks.length = resps.length)
    (hgood : ∀ r ∈ resps, goodResp r) :
    ∃ c' tr, c.run_all cbs (c.tasks.length + 1) resps = (.done c', tr) ∧
      c'.tasks = [] ∧ poppedOf tr = c.tasks :=
  run_all_no_callbacks cbs c.tasks resps c rfl hcb hlen hgood

/-- A second callback-free task, to make the FIFO order observable. -/
def taskB : Task := { url := "/my/Bob/action/rest" }

/-- Witness for C2: two distinct callback-free tasks and two good
responses; the loop pops them in enqueue order and ends with an empty
queue. -/
theorem C2_witness :
    ∃ c' tr, ({ name := "Bob", tasks := [sampleTask, taskB] } : Character).run_all
        noCallbacks (2 + 1) [(true, sampleBody), (true, sampleBody)] =
        (.done c', tr) ∧
      c'.tasks = [] ∧ poppedOf tr = [sampleTask, taskB] :=
  C2_fifo_order noCallbacks { name := "Bob", tasks := [sampleTask, taskB] }
    [(true, sampleBody), (true, sampleBody)]
    (by
      intro t ht
      rcases List.mem_cons.mp ht with h | h
      · rw [h]; rfl
      · rcases List.mem_singleton.mp h with rfl; rfl)
    rfl
    (by
      intro r hr
      rcases List.mem_cons.mp hr with h | h
      · rw [h]; exact ⟨sampleExec, 3, rfl, rfl⟩
      · rcases List.mem_singleton.mp h with rfl
        exact ⟨sampleExec, 3, rfl, rfl⟩)

/-- Claim C6: task execution fails with `ClientResponseError` (the spec's
`ActionError`) whenever the remote call fails with a non-2xx status, and
with `KeyError` (the spec's `MalformedResponseError`) when the response is
missing the `character` or the `cooldown` key; in either case `run_task`
propagates the failure verbatim to its caller with no internal retry (the
sole pop is the only effect), and the `run_all` loop stops at the failing
task, executing nothing further. -/
theorem C6_error_propagation :
    (∀ (t : Task) (b : Json),
      Task.execute t false b = .error .clientResponseError) ∧
    (∀ (t : Task) (fields : List (String × Json)),
      (Json.obj fields).getItem "character" = .error .keyError →
      Task.execute t true (.obj [("data", .obj fields)]) =
        .error .keyError) ∧
    (∀ (t : Task) (fields : List (String × Json)) (chJson : Json)
      (ch : CharacterData),
      (Json.obj fields).getItem "character" = .ok chJson →
      CharacterData.from_json chJson = .ok ch →
      (Json.obj fields).getItem "cooldown" = .error .keyError →
      Task.execute t true (.obj [("data", .obj fields)]) =
        .error .keyError) ∧
    (∀ (c : Character) (cbs : CallbackEnv) (s : Bool) (b : Json) (t : Task)
      (rest : List Task) (e : PyError),
      c.tasks = t :: rest → Task.execute t s b = .error e →
      c.run_task cbs s b = .err e { c with tasks := rest } [.popped t]) ∧
    (∀ (c : Character) (cbs : CallbackEnv) (s : Bool) (b : Json) (t : Task)
      (rest : List Task) (e : PyError) (fuel : Nat) (rs : List (Bool × Json)),
      c.tasks = t :: rest → Task.execute t s b = .error e →
      c.run_all cbs (fuel + 1) ((s, b) :: rs) =
        (.failed e { c with tasks := rest }, [.popped t])) := by
  have hprop : ∀ (c : Character) (cbs : CallbackEnv) (s : Bool) (b : Json)
      (t : Task) (rest : List Task) (e : PyError),
      c.tasks = t :: rest → Task.execute t s b = .error e →
      c.run_task cbs s b = .err e { c with tasks := rest } [.popped t] := by
    intro c cbs s b t rest e hq hex
    unfold Character.run_task
    rw [hq]
    simp only [listPop0]
    rw [hex]
  refine ⟨fun t b => rfl, ?_, ?_, hprop, ?_⟩
  · intro t fields h
    unfold Task.execute
    have hmk : make_request true (.obj [("data", .obj fields)]) =
        .ok (.obj fields) := rfl
    simp only [hmk, h]
  · intro t fields chJson ch hch hfrom hcd
    unfold Task.execute
    have hmk : make_request true (.obj [("data", .obj fields)]) =
        .ok (.obj fields) := rfl
    simp only [hmk, hch, hfrom, hcd]
  · intro c cbs s b t rest e fuel rs hq hex
    unfold Character.run_all
    rw [hq]
    simp only [List.isEmpty_cons, Bool.false_eq_true, if_false]
    rw [hprop c cbs s b t rest e hq hex]

/-- A `data` dict that lacks the `cooldown` key but carries a parseable
`character`. -/
def dataNoCooldown : List (String × Json) := [("character", sampleCharJson)]

/-- Witness for C6: a non-2xx response, a response without `character`, a
response without `cooldown`, and the propagation through `run_task` and
`run_all` for the transport failure. -/
theorem C6_witness :
    Task.execute sampleTask false sampleBody = .error .clientResponseError ∧
    Task.execute sampleTask true
        (.obj [("data", .obj [("fight", .str "win")])]) = .error .keyError ∧
    Task.execute sampleTask true (.obj [("data", .obj dataNoCooldown)]) =
      .error .keyError ∧
    ({ name := "Bob", tasks := [sampleTask] } : Character).run_task
        noCallbacks false sampleBody =
      .err .clientResponseError { name := "Bob", tasks := [] }
        [.popped sampleTask] ∧
    ({ name := "Bob", tasks := [sampleTask] } : Character).run_all
        noCallbacks (0 + 1) [(false, sampleBody)] =
      (.failed .clientResponseError { name := "Bob", tasks := [] },
        [.popped sampleTask]) := by
  obtain ⟨h1, h2, h3, h4, h5⟩ := C6_error_propagation
  exact ⟨h1 sampleTask sampleBody,
    h2 sampleTask [("fight", .str "win")] rfl,
    h3 sampleTask dataNoCooldown sampleCharJson sampleCharData rfl
      sampleCharJson_parses rfl,
    h4 { name := "Bob", tasks := [sampleTask] } noCallbacks false sampleBody
      sampleTask [] .clientResponseError rfl rfl,
    h5 { name := "Bob", tasks := [sampleTask] } noCallbacks false sampleBody
      sampleTask [] .clientResponseError 0 [] rfl rfl⟩

/-! ### C8: initialisation

C8 as frozen says: "if no record in the list matches the name,
`initialize()` fails with `EntityNotFoundError`".  That is not what the
code does on every bootstrap list: the filter predicate
`char["name"] == self.name` subscripts each record, so a record with no
`"name"` key at all — which certainly does not match the name — makes
`init` raise `KeyError` instead of `StopIteration`
(= `EntityNotFoundError`).  The claim holds once every record carries a
`"name"` field. -/

/-- Evaluation of `findByName` when no record's name matches and every record carries a
name: the filter exhausts and `next` raises `StopIteration`. -/
theorem findByName_stopIteration (name : String) :
    ∀ (l : List Json),
      (∀ r ∈ l, ∃ v, r.getItem "name" = .ok v) →
      (∀ r ∈ l, ∀ v, r.getItem "name" = .ok v → v.eqStr name = false) →
      findByName name l = .error .stopIteration
  | [], _, _ => rfl
  | r :: rs, hkeys, hno => by
    obtain ⟨v, hv⟩ := hkeys r (List.mem_cons_self r rs)
    unfold findByName
    rw [hv]
    simp only [hno r (List.mem_cons_self r rs) v hv, Bool.false_eq_true,
      if_false]
    exact findByName_stopIteration name rs
      (fun q hq => hkeys q (List.mem_cons_of_mem r hq))
      (fun q hq => hno q (List.mem_cons_of_mem r hq))

/-- Evaluation of `findByName`: it returns the first record whose name matches, provided the
records before it carry (non-matching) names. -/
theorem findByName_first (name : String) :
    ∀ (pre : List Json) (r : Json) (post : List Json),
      (∀ q ∈ pre, ∃ v, q.getItem "name" = .ok v) →
      (∀ q ∈ pre, ∀ v, q.getItem "name" = .ok v → v.eqStr name = false) →
      (∃ v, r.getItem "name" = .ok v ∧ v.eqStr name = true) →
      findByName name (pre ++ r :: post) = .ok r
  | [], r, post, _, _, hmatch => by
    obtain ⟨v, hv, heq⟩ := hmatch
    rw [List.nil_append]
    simp only [findByName]
    simp [hv, heq]
  | q :: pre, r, post, hkeys, hno, hmatch => by
    obtain ⟨v, hv⟩ := hkeys q (List.mem_cons_self q pre)
    rw [List.cons_append]
    simp only [findByName]
    simp only [hv]
    simp only [hno q (List.mem_cons_self q pre) v hv, Bool.false_eq_true,
      if_false]
    exact findByName_first name pre r post
      (fun p hp => hkeys p (List.mem_cons_of_mem q hp))
      (fun p hp => hno p (List.mem_cons_of_mem q hp)) hmatch

/-- Counterexample to C8 as stated: on the bootstrap list `[{}]` — a single
record with no `name` field — no record matches the name `"Bob"`, yet
`init` fails with `KeyError` (the missing-field error), not with
`StopIteration` (the spec's `EntityNotFoundError`). -/
theorem C8_counterexample :
    (∀ r ∈ ([Json.obj []] : List Json), ∀ v,
      r.getItem "name" = .ok v → v.eqStr "Bob" = false) ∧
    ({ name := "Bob" } : Character).init [Json.obj []] =
      .err .keyError { name := "Bob", tasks := [] } ∧
    PyError.keyError ≠ PyError.stopIteration := by
  refine ⟨?_, rfl, by simp⟩
  intro r hr v hv
  rcases List.mem_singleton.mp hr with rfl
  cases hv

/-- Claim C8 (amended): for every entity name and every bootstrap list in
which each record carries a `name` field, `init` sets the entity's state to
the first record whose name equals the runner's name — unparsed — and
leaves the task queue empty; if no record matches, `init` fails with
`StopIteration` (the spec's `EntityNotFoundError`) and the entity state is
not set.  (Without the name-field proviso the claim fails: see the
counterexample.) -/
theorem C8_init_amended (c : Character) (entities : List Json)
    (hkeys : ∀ r ∈ entities, ∃ v, r.getItem "name" = .ok v) :
    ((∀ r ∈ entities, ∀ v, r.getItem "name" = .ok v →
        v.eqStr c.name = false) →
      c.init entities = .err .stopIteration { c with tasks := [] } ∧
      ({ c with tasks := [] } : Character).character_data =
        c.character_data) ∧
    (∀ pre r post, entities = pre ++ r :: post →
      (∀ q ∈ pre, ∀ v, q.getItem "name" = .ok v → v.eqStr c.name = false) →
      (∃ v, r.getItem "name" = .ok v ∧ v.eqStr c.name = true) →
      c.init entities =
        .ok { c with tasks := [], character_data := .raw r }) := by
  constructor
  · intro hno
    refine ⟨?_, rfl⟩
    unfold Character.init
    rw [findByName_stopIteration c.name entities hkeys hno]
  · intro pre r post hsplit hno hmatch
    unfold Character.init
    subst hsplit
    rw [findByName_first c.name pre r post
      (fun q hq => hkeys q (List.mem_append_left _ hq)) hno hmatch]

/-- Witness for C8 (amended): a singleton bootstrap list holding the sample
record, whose name is the runner's name. -/
theorem C8_witness :
    ({ name := "Bob" } : Character).init [sampleCharJson] =
      .ok { name := "Bob", tasks := [],
            character_data := .raw sampleCharJson } :=
  (C8_init_amended { name := "Bob" } [sampleCharJson]
    (by
      intro r hr
      rcases List.mem_singleton.mp hr with rfl
      exact ⟨.str "Bob", rfl⟩)).2
    [] sampleCharJson []
    rfl
    (by intro q hq; cases hq)
    ⟨.str "Bob", rfl, rfl⟩

/-- Claim C9: for every character state and item code, `get_amount_by_code`
returns the quantity of the first inventory entry whose code equals the
given code, and returns `0` when no inventory entry has that code — so a
result of `0` does not distinguish "not found" from "found with zero
quantity". -/
theorem C9_get_amount_by_code (cd : CharacterData) (code : String) :
    ((∀ item ∈ cd.inventory, item.code.eqStr code = false) →
      get_amount_by_code cd code = .num 0) ∧
    (∀ pre item post, cd.inventory = pre ++ item :: post →
      item.code.eqStr code = true →
      (∀ j ∈ pre, j.code.eqStr code = false) →
      get_amount_by_code cd code = item.quantity) := by
  constructor
  · intro h
    exact get_amount_by_code_loop_eq_zero cd.inventory code h
  · intro pre item post hsplit hmatch hpre
    unfold get_amount_by_code
    rw [hsplit]
    exact get_amount_by_code_loop_eq_first pre item post code hmatch hpre

/-- Witness for C9: on the sample character (whose single inventory slot
holds 3 `ash_wood`), the lookup for `ash_wood` finds 3 and the lookup for
`iron_ore` falls through to `0`. -/
theorem C9_witness :
    get_amount_by_code sampleCharData "ash_wood" = .num 3 ∧
    get_amount_by_code sampleCharData "iron_ore" = .num 0 := by
  constructor
  · exact (C9_get_amount_by_code sampleCharData "ash_wood").2 []
      { slot := .num 1, code := .str "ash_wood", quantity := .num 3 } []
      rfl rfl (by intro j hj; cases hj)
  · exact (C9_get_amount_by_code sampleCharData "iron_ore").1 (by
      intro item hitem
      simp only [sampleCharData, List.mem_singleton] at hitem
      rw [hitem]
      rfl)

/-- Claim C7: dequeuing the head of an empty entity queue fails with
`IndexError` (the spec's `EmptyQueueError`) and leaves the queue — indeed
the whole character — unchanged, while on a non-empty queue the pop removes
and returns the head element; accordingly `run_task` on an empty queue
fails with `IndexError` and returns the character exactly as it was. -/
theorem C7_empty_queue (c : Character) (cbs : CallbackEnv) (s : Bool) (b : Json) :
    (listPop0 [] = .error .indexError) ∧
    (∀ (t : Task) (rest : List Task), listPop0 (t :: rest) = .ok (t, rest)) ∧
    (c.tasks = [] → c.run_task cbs s b = .err .indexError c []) := by
  refine ⟨rfl, fun t rest => rfl, fun h => ?_⟩
  unfold Character.run_task
  rw [h]
  rfl

/-- Witness for C7: a freshly initialised character with an empty queue. -/
theorem C7_witness :
    ({ name := "Bob", tasks := [] } : Character).run_task noCallbacks true
      sampleBody = .err .indexError { name := "Bob", tasks := [] } [] :=
  (C7_empty_queue { name := "Bob", tasks := [] } noCallbacks true
    sampleBody).2.2 rfl

/-- Claim C10: when the popped task's execution fails, `run_task` propagates
the very same exception; the failed descriptor has nonetheless already been
removed from the queue (the new queue is exactly the old tail — it is not
re-queued), and the character data and the cooldown flag still hold the
values they had before the call. -/
theorem C10_failure_no_partial_update (c : Character) (cbs : CallbackEnv)
    (s : Bool) (b : Json) (t : Task) (rest : List Task) (e : PyError)
    (hq : c.tasks = t :: rest) (hex : Task.execute t s b = .error e) :
    c.run_task cbs s b = .err e { c with tasks := rest } [.popped t] ∧
    ({ c with tasks := rest } : Character).character_data = c.character_data ∧
    ({ c with tasks := rest } : Character).on_cooldown = c.on_cooldown := by
  refine ⟨?_, rfl, rfl⟩
  unfold Character.run_task
  rw [hq]
  simp only [listPop0]
  rw [hex]

/-- Witness for C10: a transport failure (non-2xx status) on the sample
character's only task. -/
theorem C10_witness :
    ({ name := "Bob", tasks := [sampleTask] } : Character).run_task
        noCallbacks false sampleBody =
      .err .clientResponseError { name := "Bob", tasks := [] }
        [.popped sampleTask] :=
  (C10_failure_no_partial_update { name := "Bob", tasks := [sampleTask] }
    noCallbacks false sampleBody sampleTask [] .clientResponseError rfl rfl).1

end ArtifactsMMO
